import Mathlib

/-!
Shallow embedding of the task-management module: the `task.management` model
(`src/models/task_management.py`) and the `task.timesheet.line` model
(`src/models/task_timesheet_line.py`).

Modelling conventions:
* float fields (`progress`, `planned_hours`, `unit_amount`, ...) are `Rat`;
* `Date`/`Datetime` values are integer day numbers (`Int`), with day number
  `d` falling on weekday `d.emod 7` and weekday 0 being a Monday, matching
  Python `date.weekday()` where Monday is 0;
* many2one references are embedded as the referenced record (`Option` when
  the reference may be absent);
* a raised `ValidationError` is an error value of an explicit result type,
  a returned onchange/constraint warning dictionary is a carried warning
  value (non-blocking).
-/

namespace TaskMgmt

/-- A record of the external stage registry (`task.stage`): a name, a
`stage_type` string (open / done / cancelled) and the stage's own
`is_closed` flag. -/
structure Stage where
  name : String
  stage_type : String
  is_closed : Bool
deriving DecidableEq

/-- A `task.subtask` record as referenced by the two source files: parent
task, completion flag, optional deadline, and name. -/
structure Subtask where
  id : Nat
  parent_task_id : Nat
  is_done : Bool
  deadline : Option Int
  name : String
deriving DecidableEq

/-- A `task.timesheet.line` record (Time Log Entry). `subtask_id` embeds the
referenced subtask record when present. -/
structure TimesheetLine where
  name : String
  task_id : Nat
  subtask_id : Option Subtask
  user_id : Nat
  date : Int
  unit_amount : Rat
deriving DecidableEq

/-- A `task.management` record, restricted to the fields the progress and
time-tracking computations read and write. -/
structure Task where
  progress : Rat
  planned_hours : Rat
  remaining_hours : Rat
  kanban_state : String
  date_end : Option Int
  is_closed : Bool
  stage_id : Option Stage
  subtask_ids : List Subtask
  timesheet_ids : List TimesheetLine
deriving DecidableEq

/-- Python `x or 0.0` applied to a float value `x`. -/
def pyOrZero (x : Rat) : Rat := if x = 0 then 0 else x

/-- `_compute_effective_hours` (task_management.py lines 285-288):
`sum(task.timesheet_ids.mapped('unit_amount'))`. -/
def effective_hours (t : Task) : Rat :=
  (t.timesheet_ids.map TimesheetLine.unit_amount).sum

/-- The first `_compute_remaining_hours` definition (task_management.py
lines 290-293): `(task.planned_hours or 0.0) - task.effective_hours`. -/
def compute_remaining_hours_v1 (t : Task) : Rat :=
  pyOrZero t.planned_hours - effective_hours t

/-- The second, later `_compute_remaining_hours` definition
(task_management.py lines 590-601), the one that wins in Python: assigns
`remaining_hours` the same difference, then, when `planned_hours > 0` and
there are no subtasks, computes
`hours_progress = min(100, effective_hours / planned_hours * 100)` and
overwrites `progress` only when `abs(progress - hours_progress) > 5`. -/
def compute_remaining_hours_v2 (t : Task) : Task :=
  let t1 := { t with remaining_hours := pyOrZero t.planned_hours - effective_hours t }
  if t1.planned_hours > 0 ∧ t1.subtask_ids.isEmpty then
    let hours_progress := min 100 (effective_hours t1 / t1.planned_hours * 100)
    if |t1.progress - hours_progress| > 5 then { t1 with progress := hours_progress }
    else t1
  else t1

/-- `update_progress_from_subtasks` (task_management.py lines 457-476):
progress from the completed-subtask ratio when subtasks exist, else from the
fixed stage-name ladder; an unrecognized stage name leaves progress as is. -/
def update_progress_from_subtasks (t : Task) : Task :=
  if t.subtask_ids.isEmpty = false then
    let total := t.subtask_ids.length
    let dn := (t.subtask_ids.filter (fun s => s.is_done)).length
    { t with progress := if total > 0 then (dn : Rat) / (total : Rat) * 100 else 0 }
  else
    match t.stage_id with
    | some s =>
      if s.name = "To-Do" then { t with progress := 0 }
      else if s.name = "In Progress" then { t with progress := 40 }
      else if s.name = "Review" then { t with progress := 70 }
      else if s.name = "Done" then { t with progress := 100 }
      else if s.name = "Cancelled" then { t with progress := 0 }
      else t
    | none => t

/-- Modelled from the spec: the `task.subtask` model is not among the two
source files; per the spec, toggling a subtask's `is_done` triggers the
parent task's subtask-based progress recomputation. The toggle flips the
`is_done` flag of the subtask at position `i` and recomputes. -/
def toggle_subtask_is_done (t : Task) (i : Nat) (b : Bool) : Task :=
  update_progress_from_subtasks
    { t with subtask_ids :=
        t.subtask_ids.mapIdx (fun j s => if j = i then { s with is_done := b } else s) }

/-- `_onchange_stage_id` (task_management.py lines 355-380): the
stage-change synchronizer. Sets progress and kanban state from the stage
name, stamps `date_end` with the current time on "Done", and sets
`is_closed` from the stage's `stage_type`. -/
def onchange_stage_id (t : Task) (now : Int) : Task :=
  match t.stage_id with
  | none => t
  | some s =>
    let t1 :=
      if s.name = "To-Do" then { t with progress := 0, kanban_state := "normal" }
      else if s.name = "In Progress" then { t with progress := 40, kanban_state := "normal" }
      else if s.name = "Review" then { t with progress := 70, kanban_state := "normal" }
      else if s.name = "Done" then
        { t with progress := 100, date_end := some now, kanban_state := "done" }
      else if s.name = "Cancelled" then { t with progress := 0, kanban_state := "blocked" }
      else t
    if s.stage_type = "done" ∨ s.stage_type = "cancelled" then { t1 with is_closed := true }
    else { t1 with is_closed := false }

/-- `_compute_is_closed` (task_management.py lines 301-304): the stored
computed field mirrors the stage's own `is_closed` flag. -/
def compute_is_closed (t : Task) : Bool :=
  match t.stage_id with
  | some s => s.is_closed
  | none => false

/-- Result of the `_check_unit_amount` constraint: a raised
`ValidationError` with its message, or acceptance, possibly carrying the
non-blocking long-duration warning message. -/
inductive DurationResult where
  | validationError (msg : String)
  | okWith (warning : Option String)
deriving DecidableEq

/-- `_check_unit_amount` (task_timesheet_line.py lines 196-212): duration
must be strictly positive and at most 24; above 12 a non-blocking warning
is surfaced unless the `skip_duration_warning` context flag is set. -/
def _check_unit_amount (unit_amount : Rat) (skip_duration_warning : Bool) : DurationResult :=
  if unit_amount ≤ 0 then
    .validationError "Duration must be greater than 0 hours."
  else if unit_amount > 24 then
    .validationError "Duration cannot exceed 24 hours for a single day."
  else if unit_amount > 12 ∧ skip_duration_warning = false then
    .okWith (some "You are logging more than 12 hours. Please confirm this is correct.")
  else
    .okWith none

/-- `true` iff the duration constraint did not raise. -/
def durationAccepted : DurationResult → Bool
  | .validationError _ => false
  | .okWith _ => true

/-- Result of the `_check_date` constraint: a `ValidationError` whose
message names the subtask deadline, a `ValidationError` for a future date,
or acceptance. -/
inductive DateResult where
  | afterSubtaskDeadline (deadline : Int)
  | futureDateError
  | dateOk
deriving DecidableEq

/-- `_check_date` (task_timesheet_line.py lines 214-228): with a referenced
subtask that has a deadline, the date must not exceed that deadline (the
raised message names the deadline); otherwise the date must not exceed
today. -/
def _check_date (subtask_id : Option Subtask) (date : Int) (today : Int) : DateResult :=
  match subtask_id with
  | some s =>
    match s.deadline with
    | some dl => if date > dl then .afterSubtaskDeadline dl else .dateOk
    | none => if date > today then .futureDateError else .dateOk
  | none => if date > today then .futureDateError else .dateOk

/-- The conjunction of all write-time constraints declared on
`task.timesheet.line` (`_check_unit_amount` and `_check_date` are the only
`api.constrains` methods of the model): `true` iff a create/write of the
entry is accepted. -/
def validate_write (l : TimesheetLine) (today : Int) (skip_duration_warning : Bool) : Bool :=
  durationAccepted (_check_unit_amount l.unit_amount skip_duration_warning)
    && (_check_date l.subtask_id l.date today == .dateOk)

/-- `_onchange_subtask_id` (task_timesheet_line.py lines 163-170): when a
subtask with a deadline is selected, the entry's date is overwritten with
that deadline, and an empty work description is filled from the subtask
name. -/
def _onchange_subtask_id (l : TimesheetLine) : TimesheetLine :=
  match l.subtask_id with
  | some s =>
    match s.deadline with
    | some dl =>
      let l1 := { l with date := dl }
      if l1.name = "" then { l1 with name := s.name } else l1
    | none => l
  | none => l

/-- One per-task row of the weekly summary details list. -/
structure WeeklyDetail where
  task : Nat
  hours : Rat
  entries : Nat
deriving DecidableEq

/-- The dictionary returned by `get_weekly_summary`. -/
structure WeeklySummary where
  total_hours : Rat
  days_worked : Nat
  tasks_worked : Nat
  details : List WeeklyDetail
deriving DecidableEq

/-- Python `today.weekday()` under the day-number model: day 0 is a Monday,
so the weekday index (Monday = 0) of day `d` is `d % 7` (Euclidean
remainder, nonnegative for the positive modulus, as in Python). -/
def weekday (d : Int) : Int := d % 7

/-- `get_weekly_summary` (task_timesheet_line.py lines 254-288): defaults
the user to the environment user and the range to Monday..Sunday of the
current week, filters the entries by user and inclusive date range, and
aggregates totals, distinct days, distinct tasks, and per-task rows.
`lines` stands for the stored `task.timesheet.line` records that `search`
draws from; Odoo `mapped` over a many2one deduplicates, embedded as
`List.dedup` (the claims do not depend on group order). -/
def get_weekly_summary (lines : List TimesheetLine) (env_user : Nat)
    (user_id : Option Nat) (date_from date_to : Option Int) (today : Int) : WeeklySummary :=
  let uid := match user_id with | some u => u | none => env_user
  let df := match date_from with | some d => d | none => today - weekday today
  let dt := match date_to with | some d => d | none => df + 6
  let time_logs := lines.filter (fun l => l.user_id = uid ∧ df ≤ l.date ∧ l.date ≤ dt)
  { total_hours := (time_logs.map TimesheetLine.unit_amount).sum
    days_worked := (time_logs.map TimesheetLine.date).dedup.length
    tasks_worked := (time_logs.map TimesheetLine.task_id).dedup.length
    details := (time_logs.map TimesheetLine.task_id).dedup.map (fun tid =>
      let task_logs := time_logs.filter (fun l => l.task_id = tid)
      { task := tid
        hours := (task_logs.map TimesheetLine.unit_amount).sum
        entries := task_logs.length }) }

/-- One `(date, user, hours)` tuple of a subtask group. -/
structure SubtaskTimeEntry where
  date : Int
  user : Nat
  hours : Rat
deriving DecidableEq

/-- One group of `by_subtask` in the time-tracking summary, keyed by the
subtask id (key 0 and name "Other Work" for entries with no subtask). -/
structure SubtaskGroup where
  key : Nat
  name : String
  total_hours : Rat
  entries : List SubtaskTimeEntry
deriving DecidableEq

/-- The dictionary-update step of the grouping loop in
`get_time_tracking_summary`: create the group on first sight of the key,
then accumulate hours and append the entry tuple. -/
def add_to_group (groups : List SubtaskGroup) (key : Nat) (nm : String)
    (e : SubtaskTimeEntry) : List SubtaskGroup :=
  if groups.any (fun g => g.key = key) then
    groups.map (fun g =>
      if g.key = key then
        { g with total_hours := g.total_hours + e.hours, entries := g.entries ++ [e] }
      else g)
  else
    groups ++ [{ key := key, name := nm, total_hours := e.hours, entries := [e] }]

/-- The grouping loop of `get_time_tracking_summary` (task_management.py
lines 607-622) over a task's time logs. -/
def group_timesheets_by_subtask (lines : List TimesheetLine) : List SubtaskGroup :=
  lines.foldl (fun groups ts =>
    let key := match ts.subtask_id with | some s => s.id | none => 0
    let nm := match ts.subtask_id with | some s => s.name | none => "Other Work"
    add_to_group groups key nm ⟨ts.date, ts.user_id, ts.unit_amount⟩) []

/-- The dictionary returned by `get_time_tracking_summary`. -/
structure TimeTrackingSummary where
  total_planned : Rat
  total_spent : Rat
  remaining : Rat
  progress_percent : Rat
  by_subtask : List SubtaskGroup
  is_over_budget : Bool
deriving DecidableEq

/-- `get_time_tracking_summary` (task_management.py lines 603-631). Note
the Python conditional expression for the last field:
`self.effective_hours > self.planned_hours if self.planned_hours else
False` — a falsy (zero) `planned_hours` yields `False` outright. -/
def get_time_tracking_summary (t : Task) : TimeTrackingSummary :=
  { total_planned := t.planned_hours
    total_spent := effective_hours t
    remaining := t.remaining_hours
    progress_percent := t.progress
    by_subtask := group_timesheets_by_subtask t.timesheet_ids
    is_over_budget :=
      if t.planned_hours ≠ 0 then decide (effective_hours t > t.planned_hours) else false }

/-! Helper lemmas -/

/-- Python `x or 0.0` is the identity on a float value. -/
theorem pyOrZero_eq (x : Rat) : pyOrZero x = x := by
  unfold pyOrZero
  split <;> simp_all

/-- A task witnessing a negative remaining-hours value. -/
def overspent_task : Task :=
  { progress := 0, planned_hours := 0, remaining_hours := 0, kanban_state := "normal",
    date_end := none, is_closed := false, stage_id := none, subtask_ids := [],
    timesheet_ids :=
      [{ name := "w", task_id := 1, subtask_id := none, user_id := 1, date := 0,
         unit_amount := 5 }] }

/-- Claim C1: for every task with `planned_hours > 0` and no subtasks,
recomputing `remaining_hours` computes
`hours_progress = min(100, effective_hours / planned_hours * 100)` and
overwrites `progress` with it exactly when
`|progress - hours_progress| > 5`, leaving `progress` unchanged otherwise;
and for every task with at least one subtask the hours-based adjustment
never modifies `progress`. -/
theorem hours_adjustment_c1 (t : Task) :
    (t.planned_hours > 0 → t.subtask_ids.isEmpty = true →
      (compute_remaining_hours_v2 t).progress =
        if |t.progress - min 100 (effective_hours t / t.planned_hours * 100)| > 5
        then min 100 (effective_hours t / t.planned_hours * 100)
        else t.progress)
    ∧ (t.subtask_ids.isEmpty = false →
      (compute_remaining_hours_v2 t).progress = t.progress) := by
  constructor
  · intro hp he
    simp only [compute_remaining_hours_v2, effective_hours, he, hp, and_self, if_true,
      true_and]
    split <;> rfl
  · intro he
    simp only [compute_remaining_hours_v2, he]
    simp

/-- Witness for C1: the spec scenario, a task with `planned_hours = 10`, no
subtasks and a single 5-hour time log; the hypotheses of
`hours_adjustment_c1` hold for it. -/
def scenario_task : Task :=
  { progress := 40, planned_hours := 10, remaining_hours := 0, kanban_state := "normal",
    date_end := none, is_closed := false, stage_id := none, subtask_ids := [],
    timesheet_ids :=
      [{ name := "w", task_id := 1, subtask_id := none, user_id := 1, date := 0,
         unit_amount := 5 }] }

theorem hours_adjustment_c1_witness :
    scenario_task.planned_hours > 0 ∧ scenario_task.subtask_ids.isEmpty = true ∧
      (compute_remaining_hours_v2 scenario_task).progress =
        if |scenario_task.progress -
              min 100 (effective_hours scenario_task / scenario_task.planned_hours * 100)| > 5
        then min 100 (effective_hours scenario_task / scenario_task.planned_hours * 100)
        else scenario_task.progress :=
  ⟨by decide, by decide, (hours_adjustment_c1 scenario_task).1 (by decide) (by decide)⟩

/-- Claim C3: both source definitions of the remaining-hours computation
assign `remaining_hours = planned_hours - effective_hours`, with no floor
or clamp — the value can be negative. -/
theorem remaining_hours_c3 (t : Task) :
    compute_remaining_hours_v1 t = t.planned_hours - effective_hours t
    ∧ (compute_remaining_hours_v2 t).remaining_hours = t.planned_hours - effective_hours t
    ∧ (compute_remaining_hours_v2 overspent_task).remaining_hours < 0 := by
  refine ⟨?_, ?_, ?_⟩
  · unfold compute_remaining_hours_v1
    rw [pyOrZero_eq]
  · simp only [compute_remaining_hours_v2]
    split
    · split <;> simp [pyOrZero_eq]
    · simp [pyOrZero_eq]
  · show (compute_remaining_hours_v2 overspent_task).remaining_hours < 0
    norm_num [compute_remaining_hours_v2, overspent_task, effective_hours, pyOrZero]

/-- Claim C2: after any subtask `is_done` toggle, a task with at least one
subtask has `progress = completed_subtask_count / total_subtask_count * 100`
(counts taken over the toggled subtask list); and recomputing progress for a
task with no subtasks takes it from the fixed stage-name mapping
To-Do→0, In Progress→40, Review→70, Done→100, Cancelled→0, an unrecognized
stage name leaving progress unchanged. -/
theorem subtask_progress_c2 (t : Task) (i : Nat) (b : Bool) :
    (t.subtask_ids.isEmpty = false →
      (toggle_subtask_is_done t i b).progress =
        (((t.subtask_ids.mapIdx fun j s =>
            if j = i then { s with is_done := b } else s).filter
              (fun s => s.is_done)).length : Rat) /
          ((t.subtask_ids.mapIdx fun j s =>
            if j = i then { s with is_done := b } else s).length : Rat) * 100)
    ∧ (t.subtask_ids.isEmpty = true →
      (update_progress_from_subtasks t).progress =
        match t.stage_id with
        | some s =>
          if s.name = "To-Do" then 0
          else if s.name = "In Progress" then 40
          else if s.name = "Review" then 70
          else if s.name = "Done" then 100
          else if s.name = "Cancelled" then 0
          else t.progress
        | none => t.progress) := by
  constructor
  · intro he
    rw [List.isEmpty_eq_false] at he
    have hne : (t.subtask_ids.mapIdx fun j s =>
        if j = i then { s with is_done := b } else s) ≠ [] := by
      intro hnil
      apply he
      have := congrArg List.length hnil
      simpa using this
    have hpos : 0 < (t.subtask_ids.mapIdx fun j s =>
        if j = i then { s with is_done := b } else s).length :=
      List.length_pos.mpr hne
    unfold toggle_subtask_is_done update_progress_from_subtasks
    simp only [List.isEmpty_eq_false, hne, ne_eq, not_false_eq_true, if_true, hpos, if_pos]
  · intro he
    rw [List.isEmpty_iff] at he
    unfold update_progress_from_subtasks
    rw [he, if_neg (by simp)]
    cases hs : t.stage_id with
    | none => rfl
    | some s =>
      dsimp only
      split_ifs <;> rfl

/-- Witness task for C2 part one: two subtasks, the first done. -/
def two_subtask_task : Task :=
  { progress := 50, planned_hours := 0, remaining_hours := 0, kanban_state := "normal",
    date_end := none, is_closed := false, stage_id := none,
    subtask_ids :=
      [{ id := 1, parent_task_id := 1, is_done := true, deadline := none, name := "a" },
       { id := 2, parent_task_id := 1, is_done := false, deadline := none, name := "b" }],
    timesheet_ids := [] }

/-- Witness task for C2 part two: no subtasks, stage "Review". -/
def review_task : Task :=
  { progress := 40, planned_hours := 0, remaining_hours := 0, kanban_state := "normal",
    date_end := none, is_closed := false,
    stage_id := some { name := "Review", stage_type := "open", is_closed := false },
    subtask_ids := [], timesheet_ids := [] }

theorem subtask_progress_c2_witness :
    two_subtask_task.subtask_ids.isEmpty = false
    ∧ (toggle_subtask_is_done two_subtask_task 1 true).progress =
        (((two_subtask_task.subtask_ids.mapIdx fun j s =>
            if j = 1 then { s with is_done := true } else s).filter
              (fun s => s.is_done)).length : Rat) /
          ((two_subtask_task.subtask_ids.mapIdx fun j s =>
            if j = 1 then { s with is_done := true } else s).length : Rat) * 100
    ∧ review_task.subtask_ids.isEmpty = true
    ∧ (update_progress_from_subtasks review_task).progress =
        match review_task.stage_id with
        | some s =>
          if s.name = "To-Do" then 0
          else if s.name = "In Progress" then 40
          else if s.name = "Review" then 70
          else if s.name = "Done" then 100
          else if s.name = "Cancelled" then 0
          else review_task.progress
        | none => review_task.progress :=
  ⟨by decide,
   (subtask_progress_c2 two_subtask_task 1 true).1 (by decide),
   by decide,
   (subtask_progress_c2 review_task 0 false).2 (by decide)⟩

/-- Claim C4: on a stage change, the synchronizer sets, for stage name
"Done": kanban state done, progress 100, `date_end` stamped with the
current time, and closed; for "Cancelled": kanban state blocked, progress
0, and closed; for "To-Do"/"In Progress"/"Review": kanban state normal;
and `is_closed` is true exactly when the stage's kind is done or
cancelled. The hypotheses `hd`/`hc` record the stage registry's pairing of
the names "Done"/"Cancelled" with the kinds done/cancelled. -/
theorem stage_sync_c4 (t : Task) (s : Stage) (now : Int)
    (h : t.stage_id = some s)
    (hd : s.name = "Done" → s.stage_type = "done")
    (hc : s.name = "Cancelled" → s.stage_type = "cancelled") :
    (s.name = "Done" →
      (onchange_stage_id t now).kanban_state = "done"
      ∧ (onchange_stage_id t now).progress = 100
      ∧ (onchange_stage_id t now).date_end = some now
      ∧ (onchange_stage_id t now).is_closed = true)
    ∧ (s.name = "Cancelled" →
      (onchange_stage_id t now).kanban_state = "blocked"
      ∧ (onchange_stage_id t now).progress = 0
      ∧ (onchange_stage_id t now).is_closed = true)
    ∧ ((s.name = "To-Do" ∨ s.name = "In Progress" ∨ s.name = "Review") →
      (onchange_stage_id t now).kanban_state = "normal")
    ∧ ((onchange_stage_id t now).is_closed = true ↔
      (s.stage_type = "done" ∨ s.stage_type = "cancelled")) := by
  unfold onchange_stage_id
  rw [h]
  refine ⟨?_, ?_, ?_, ?_⟩
  · intro hn
    have hst := hd hn
    simp [hn, hst]
  · intro hn
    have hst := hc hn
    simp [hn, hst]
  · rintro (hn | hn | hn) <;> simp [hn] <;> split_ifs <;> simp
  · by_cases hst : s.stage_type = "done" ∨ s.stage_type = "cancelled" <;> simp [hst]

/-- Witness task for C4: stage "Done" of kind done. -/
def done_stage_task : Task :=
  { progress := 40, planned_hours := 0, remaining_hours := 0, kanban_state := "normal",
    date_end := none, is_closed := false,
    stage_id := some { name := "Done", stage_type := "done", is_closed := true },
    subtask_ids := [], timesheet_ids := [] }

theorem stage_sync_c4_witness :
    done_stage_task.stage_id = some { name := "Done", stage_type := "done", is_closed := true }
    ∧ (onchange_stage_id done_stage_task 99).kanban_state = "done"
    ∧ (onchange_stage_id done_stage_task 99).progress = 100
    ∧ (onchange_stage_id done_stage_task 99).date_end = some 99
    ∧ (onchange_stage_id done_stage_task 99).is_closed = true :=
  ⟨rfl,
   (stage_sync_c4 done_stage_task { name := "Done", stage_type := "done", is_closed := true }
      99 rfl (fun _ => rfl) (fun hx => by simp at hx)).1 rfl⟩

/-- Claim C5: a Time Log Entry write passes the duration constraint exactly
when `0 < duration ≤ 24`; `duration ≤ 0` raises the positive-duration
`ValidationError`, `duration > 24` raises the single-day `ValidationError`,
and a duration above 12 (not suppressed) is accepted with only a
non-blocking warning. -/
theorem duration_check_c5 (d : Rat) (skip : Bool) :
    (durationAccepted (_check_unit_amount d skip) = true ↔ 0 < d ∧ d ≤ 24)
    ∧ (d ≤ 0 →
      _check_unit_amount d skip =
        .validationError "Duration must be greater than 0 hours.")
    ∧ (d > 24 →
      _check_unit_amount d skip =
        .validationError "Duration cannot exceed 24 hours for a single day.")
    ∧ (12 < d → d ≤ 24 → skip = false →
      _check_unit_amount d skip =
        .okWith (some "You are logging more than 12 hours. Please confirm this is correct.")) := by
  refine ⟨?_, ?_, ?_, ?_⟩
  · unfold _check_unit_amount
    split_ifs with h1 h2 h3
    · exact iff_of_false (by simp [durationAccepted]) (fun hx => by linarith [hx.1])
    · exact iff_of_false (by simp [durationAccepted]) (fun hx => by linarith [hx.2])
    · exact iff_of_true (by simp [durationAccepted]) ⟨by linarith, by linarith⟩
    · exact iff_of_true (by simp [durationAccepted]) ⟨by linarith, by linarith⟩
  · intro hd
    unfold _check_unit_amount
    rw [if_pos hd]
  · intro hd
    unfold _check_unit_amount
    rw [if_neg (by linarith), if_pos hd]
  · intro h12 h24 hskip
    unfold _check_unit_amount
    rw [if_neg (by linarith), if_neg (by linarith), if_pos ⟨h12, hskip⟩]

theorem duration_check_c5_witness :
    (0 < (13:Rat) ∧ (13:Rat) ≤ 24)
    ∧ durationAccepted (_check_unit_amount 13 false) = true
    ∧ (0:Rat) ≤ 0
    ∧ _check_unit_amount 0 false =
        .validationError "Duration must be greater than 0 hours."
    ∧ (25:Rat) > 24
    ∧ _check_unit_amount 25 false =
        .validationError "Duration cannot exceed 24 hours for a single day."
    ∧ _check_unit_amount 13 false =
        .okWith (some "You are logging more than 12 hours. Please confirm this is correct.") :=
  ⟨⟨by decide, by decide⟩,
   (duration_check_c5 13 false).1.mpr ⟨by decide, by decide⟩,
   le_refl 0,
   (duration_check_c5 0 false).2.1 (by decide),
   by decide,
   (duration_check_c5 25 false).2.2.1 (by decide),
   (duration_check_c5 13 false).2.2.2 (by decide) (by decide) rfl⟩

/-- Claim C6: with a referenced subtask that has a deadline, the date
constraint raises the `ValidationError` naming that deadline exactly when
`date > deadline`; with no subtask, or a subtask without a deadline, it
raises the future-date `ValidationError` exactly when `date > today`. -/
theorem date_check_c6 (sub : Option Subtask) (s : Subtask) (dl date today : Int) :
    (sub = some s → s.deadline = some dl →
      (_check_date sub date today = .afterSubtaskDeadline dl ↔ date > dl))
    ∧ ((sub = none ∨ (sub = some s ∧ s.deadline = none)) →
      (_check_date sub date today = .futureDateError ↔ date > today)) := by
  constructor
  · intro hsub hdl
    subst hsub
    unfold _check_date
    dsimp only
    rw [hdl]
    split_ifs with h <;> simp [h]
  · rintro (hsub | ⟨hsub, hdl⟩) <;> subst hsub <;> unfold _check_date <;> dsimp only
    · split_ifs with h <;> simp [h]
    · rw [hdl]
      split_ifs with h <;> simp [h]

/-- Witness subtask for C6: deadline on day 10. -/
def deadline_subtask : Subtask :=
  { id := 3, parent_task_id := 1, is_done := false, deadline := some 10, name := "s" }

theorem date_check_c6_witness :
    (_check_date (some deadline_subtask) 11 100 = .afterSubtaskDeadline 10 ↔ (11:Int) > 10)
    ∧ (_check_date none 11 10 = .futureDateError ↔ (11:Int) > 10) :=
  ⟨(date_check_c6 (some deadline_subtask) deadline_subtask 10 11 100).1 rfl rfl,
   (date_check_c6 none deadline_subtask 10 11 10).2 (Or.inl rfl)⟩

/-- A Time Log Entry referencing a subtask of a different task
(`task_id = 1`, subtask's `parent_task_id = 2`) with valid duration and
date. -/
def mismatched_entry : TimesheetLine :=
  { name := "General work", task_id := 1,
    subtask_id := some { id := 7, parent_task_id := 2, is_done := false,
                         deadline := none, name := "other" },
    user_id := 1, date := 50, unit_amount := 2 }

/-- Counterexample to claim C7 as stated: the write-time constraints of
`task.timesheet.line` accept an entry whose referenced subtask belongs to a
different task — the cross-task condition is only a UI selection domain on
the `subtask_id` field, never validated on create/write. -/
theorem subtask_mismatch_c7_counterexample :
    mismatched_entry.subtask_id.map Subtask.parent_task_id ≠ some mismatched_entry.task_id
    ∧ validate_write mismatched_entry 100 false = true := by
  constructor
  · decide
  · decide

/-- Claim C7 amended: the validation outcome of a Time Log Entry write is
independent of the referenced subtask's parent task; replacing the parent
task of the referenced subtask never changes whether the write is
accepted. -/
theorem subtask_mismatch_c7_amended (l : TimesheetLine) (n : Nat) (today : Int)
    (skip : Bool) :
    validate_write
        { l with subtask_id := l.subtask_id.map (fun s => { s with parent_task_id := n }) }
        today skip
      = validate_write l today skip := by
  unfold validate_write _check_date
  cases hsub : l.subtask_id with
  | none => rfl
  | some s => cases hdl : s.deadline with
    | none => rfl
    | some dl => rfl

/-- Claim C10: selecting a subtask that has a deadline overwrites the
entry's date with the subtask's deadline and, when the work description is
empty, fills it with the subtask's name, leaving a non-empty description
unchanged. -/
theorem onchange_subtask_c10 (l : TimesheetLine) (s : Subtask) (dl : Int)
    (hsub : l.subtask_id = some s) (hdl : s.deadline = some dl) :
    (_onchange_subtask_id l).date = dl
    ∧ (l.name = "" → (_onchange_subtask_id l).name = s.name)
    ∧ (l.name ≠ "" → (_onchange_subtask_id l).name = l.name) := by
  unfold _onchange_subtask_id
  rw [hsub]
  dsimp only
  rw [hdl]
  dsimp only
  refine ⟨?_, ?_, ?_⟩
  · split_ifs <;> rfl
  · intro hname
    rw [if_pos hname]
  · intro hname
    rw [if_neg hname]

/-- Witness entry for C10: empty description, subtask with a deadline. -/
def blank_entry : TimesheetLine :=
  { name := "", task_id := 1,
    subtask_id := some { id := 4, parent_task_id := 1, is_done := false,
                         deadline := some 42, name := "Sub" },
    user_id := 1, date := 7, unit_amount := 1 }

theorem onchange_subtask_c10_witness :
    (_onchange_subtask_id blank_entry).date = 42
    ∧ (_onchange_subtask_id blank_entry).name = "Sub" :=
  ⟨(onchange_subtask_c10 blank_entry
      { id := 4, parent_task_id := 1, is_done := false, deadline := some 42, name := "Sub" }
      42 rfl rfl).1,
   (onchange_subtask_c10 blank_entry
      { id := 4, parent_task_id := 1, is_done := false, deadline := some 42, name := "Sub" }
      42 rfl rfl).2.1 rfl⟩

/-- Spec-side description of the entries a weekly summary must consider:
exactly those with the given user and a date within the inclusive range. -/
def weekly_logs (lines : List TimesheetLine) (uid : Nat) (df dt : Int) : List TimesheetLine :=
  lines.filter (fun l => l.user_id = uid ∧ df ≤ l.date ∧ l.date ≤ dt)

/-- Claim C8: `get_weekly_summary` considers exactly the entries with the
given user and date in the inclusive range (defaulting the user to the
environment user and the range to Monday–Sunday of the current week), and
reports their total hours, the number of distinct dates, the number of
distinct tasks, and one per-task row with that task's hour total and entry
count — a row exists exactly for the tasks occurring among the considered
entries. -/
theorem weekly_summary_c8 (lines : List TimesheetLine) (env_user uid : Nat)
    (df dt today : Int) :
    ((get_weekly_summary lines env_user (some uid) (some df) (some dt) today).total_hours =
        ((weekly_logs lines uid df dt).map TimesheetLine.unit_amount).sum
    ∧ (get_weekly_summary lines env_user (some uid) (some df) (some dt) today).days_worked =
        ((weekly_logs lines uid df dt).map TimesheetLine.date).toFinset.card
    ∧ (get_weekly_summary lines env_user (some uid) (some df) (some dt) today).tasks_worked =
        ((weekly_logs lines uid df dt).map TimesheetLine.task_id).toFinset.card
    ∧ (∀ d ∈ (get_weekly_summary lines env_user (some uid) (some df) (some dt) today).details,
        d.hours = (((weekly_logs lines uid df dt).filter (fun l => l.task_id = d.task)).map
            TimesheetLine.unit_amount).sum
        ∧ d.entries = ((weekly_logs lines uid df dt).filter (fun l => l.task_id = d.task)).length)
    ∧ (∀ tid : Nat,
        (∃ d ∈ (get_weekly_summary lines env_user (some uid) (some df) (some dt) today).details,
            d.task = tid)
          ↔ tid ∈ (weekly_logs lines uid df dt).map TimesheetLine.task_id))
    ∧ (get_weekly_summary lines env_user none none none today =
        get_weekly_summary lines env_user (some env_user) (some (today - weekday today))
          (some (today - weekday today + 6)) today
      ∧ weekday (today - weekday today) = 0
      ∧ today - weekday today ≤ today
      ∧ today ≤ today - weekday today + 6) := by
  refine ⟨⟨rfl, ?_, ?_, ?_, ?_⟩, rfl, ?_, ?_, ?_⟩
  · exact (List.card_toFinset _).symm
  · exact (List.card_toFinset _).symm
  · intro d hd
    simp only [get_weekly_summary, weekly_logs, List.mem_map] at hd ⊢
    obtain ⟨tid, _, rfl⟩ := hd
    exact ⟨rfl, rfl⟩
  · intro tid
    constructor
    · rintro ⟨d, hd, rfl⟩
      simp only [get_weekly_summary, List.mem_map] at hd
      obtain ⟨tid, htid, rfl⟩ := hd
      exact List.mem_dedup.mp htid
    · intro h
      refine ⟨{ task := tid,
                hours := (((weekly_logs lines uid df dt).filter
                    (fun l => l.task_id = tid)).map TimesheetLine.unit_amount).sum,
                entries := ((weekly_logs lines uid df dt).filter
                    (fun l => l.task_id = tid)).length }, ?_, rfl⟩
      simp only [get_weekly_summary, List.mem_map]
      exact ⟨tid, List.mem_dedup.mpr h, rfl⟩
  · simp only [weekday]
    omega
  · simp only [weekday]
    omega
  · simp only [weekday]
    omega

/-- Witness entries for C8: two users, one date outside the range. -/
def sample_logs : List TimesheetLine :=
  [ { name := "a", task_id := 1, subtask_id := none, user_id := 1, date := 0, unit_amount := 2 },
    { name := "b", task_id := 1, subtask_id := none, user_id := 1, date := 1, unit_amount := 3 },
    { name := "c", task_id := 2, subtask_id := none, user_id := 2, date := 1, unit_amount := 9 },
    { name := "d", task_id := 3, subtask_id := none, user_id := 1, date := 9, unit_amount := 9 } ]

theorem weekly_summary_c8_witness :
    (get_weekly_summary sample_logs 1 (some 1) (some 0) (some 6) 3).total_hours =
        ((weekly_logs sample_logs 1 0 6).map TimesheetLine.unit_amount).sum
    ∧ (get_weekly_summary sample_logs 1 (some 1) (some 0) (some 6) 3).days_worked =
        ((weekly_logs sample_logs 1 0 6).map TimesheetLine.date).toFinset.card
    ∧ get_weekly_summary sample_logs 1 none none none 3 =
        get_weekly_summary sample_logs 1 (some 1) (some (3 - weekday 3))
          (some (3 - weekday 3 + 6)) 3 :=
  ⟨(weekly_summary_c8 sample_logs 1 1 0 6 3).1.1,
   (weekly_summary_c8 sample_logs 1 1 0 6 3).1.2.1,
   (weekly_summary_c8 sample_logs 1 1 0 6 3).2.1⟩

/-- A task with `planned_hours = 0` and a 5-hour time log: spent hours
exceed planned hours. -/
def zero_planned_task : Task :=
  { progress := 0, planned_hours := 0, remaining_hours := -5, kanban_state := "normal",
    date_end := none, is_closed := false, stage_id := none, subtask_ids := [],
    timesheet_ids :=
      [{ name := "w", task_id := 1, subtask_id := none, user_id := 1, date := 0,
         unit_amount := 5 }] }

/-- Counterexample to claim C9 as stated: for a task with
`planned_hours = 0` and positive spent hours, `effective_hours >
planned_hours` holds yet `get_time_tracking_summary` reports
`is_over_budget = false`, because the Python conditional expression yields
`False` outright when `planned_hours` is falsy (zero). -/
theorem over_budget_c9_counterexample :
    effective_hours zero_planned_task > zero_planned_task.planned_hours
    ∧ (get_time_tracking_summary zero_planned_task).is_over_budget = false := by
  constructor
  · norm_num [effective_hours, zero_planned_task]
  · rfl

/-- Claim C9 amended: `get_time_tracking_summary` reports
`is_over_budget = true` iff `planned_hours` is nonzero and
`effective_hours > planned_hours`; a zero `planned_hours` yields `false`
regardless of the hours spent. -/
theorem over_budget_c9_amended (t : Task) :
    (get_time_tracking_summary t).is_over_budget = true ↔
      t.planned_hours ≠ 0 ∧ effective_hours t > t.planned_hours := by
  unfold get_time_tracking_summary
  dsimp only
  split_ifs with h
  · simp [h]
  · simp [h]

end TaskMgmt
